import Mathlib

/-!
Shallow embedding of `compress.py` (petercunha/compressor): a CLI tool that
compresses an image or video file to fit under a byte budget.

Conventions of the embedding:
* Python strings are modelled as `List Char` (ASCII fragment: `str.upper`,
  `str.strip` and the numeric literal grammar are modelled for ASCII input;
  Unicode-only behaviours such as non-ASCII whitespace, non-ASCII case
  mappings, digit-group underscores, exponent/`inf`/`nan` float literals are
  outside the model).
* Python floats are modelled as exact rationals (`ℚ`); on every concrete
  value appearing in these theorems the float computations of the source are
  exact, so the rational model agrees with the binary64 evaluation.
* `int(x)` on a float is truncation toward zero (`pyTrunc`); `int(s)` on a
  string is the integer-literal parse (`pyIntStr`).
* External processes (PIL encoder, ffprobe, ffmpeg) are opaque: they enter
  the model as oracle parameters (an encoded-size function for the image
  loop; probe stdout and pass exit statuses for the video pipeline).
-/

namespace Compressor

/-! ### Python string primitives (ASCII fragment) -/

/-- `str.upper` on one ASCII character: lowercase letters are shifted to
uppercase, everything else is unchanged (matches CPython for ASCII). -/
def pyToUpper (c : Char) : Char :=
  if 97 ≤ c.toNat ∧ c.toNat ≤ 122 then Char.ofNat (c.toNat - 32) else c

/-- `str.lower` on one ASCII character. -/
def pyToLower (c : Char) : Char :=
  if 65 ≤ c.toNat ∧ c.toNat ≤ 90 then Char.ofNat (c.toNat + 32) else c

/-- The ASCII whitespace characters stripped by `str.strip()` (space, tab,
newline, carriage return, vertical tab, form feed). -/
def pyIsSpace (c : Char) : Bool :=
  c.toNat = 32 || c.toNat = 9 || c.toNat = 10 || c.toNat = 13 ||
  c.toNat = 11 || c.toNat = 12

/-- `str.strip()`: drop whitespace from both ends. -/
def pyStrip (l : List Char) : List Char :=
  ((l.dropWhile pyIsSpace).reverse.dropWhile pyIsSpace).reverse

/-- `s.endswith(suffix)`. -/
def pyEndsWith (suffix l : List Char) : Bool :=
  suffix.isSuffixOf l

/-! ### Python numeric literal parsing -/

/-- Value of a digit string (most significant first). -/
def digitsVal (l : List Char) : ℕ :=
  l.foldl (fun a c => a * 10 + (c.toNat - 48)) 0

/-- Every character is an ASCII digit. -/
def allDigits (l : List Char) : Bool :=
  l.all (fun c => c.isDigit)

/-- Strip an optional leading sign; return the sign as `1` or `-1`. -/
def pySign (l : List Char) : ℤ × List Char :=
  match l with
  | c :: rest =>
      if c = '-' then (-1, rest)
      else if c = '+' then (1, rest) else (1, l)
  | [] => (1, [])

/-- `float(s)` for the decimal fragment of the Python float grammar:
optional surrounding whitespace, optional sign, then digits with an optional
decimal point (at least one digit in total).  Returns the exact rational
value, `none` when `float` would raise `ValueError`.  (Exponents, `inf`,
`nan` and digit-group underscores are not modelled.) -/
def pyFloat (l : List Char) : Option ℚ :=
  let s := pySign (pyStrip l)
  match s.2.splitOn '.' with
  | [d] =>
      if d ≠ [] && allDigits d then some ((s.1 : ℚ) * (digitsVal d : ℚ))
      else none
  | [a, b] =>
      if (a ≠ [] || b ≠ []) && allDigits a && allDigits b then
        some ((s.1 : ℚ) * ((digitsVal a : ℚ) + (digitsVal b : ℚ) / (10 : ℚ) ^ b.length))
      else none
  | _ => none

/-- `int(s)` for a string: optional surrounding whitespace, optional sign,
one or more digits.  `none` when `int` would raise `ValueError` (in
particular on any fractional literal such as `"1.5"`). -/
def pyIntStr (l : List Char) : Option ℤ :=
  let s := pySign (pyStrip l)
  if s.2 ≠ [] && allDigits s.2 then some (s.1 * (digitsVal s.2 : ℤ))
  else none

/-- `int(x)` on a number: truncation toward zero. -/
def pyTrunc (q : ℚ) : ℤ :=
  q.num.tdiv (q.den : ℤ)

/-! ### `parse_size` (compress.py lines 9–21)

The uncaught `ValueError` raised by `float`/`int` on a malformed numeric
portion is the spec's `InvalidSizeFormat` failure (it terminates the run
with a non-zero exit). -/

inductive SizeError
  | invalidSizeFormat
deriving DecidableEq, Repr

/-- The branch body shared by the four suffix cases: parse the numeric
portion with `float`, scale, truncate to an integer. -/
def sizeBranch (portion : List Char) (scale : ℚ) : Except SizeError ℤ :=
  match pyFloat portion with
  | some q => .ok (pyTrunc (q * scale))
  | none => .error .invalidSizeFormat

/-- `parse_size` after the initial `strip().upper()`: the `if/elif` suffix
chain of lines 12–21 of compress.py, in source order (GB, MB, KB, B, bare). -/
def parseSizeCore (s : List Char) : Except SizeError ℤ :=
  if pyEndsWith ("GB".toList) s then
    sizeBranch (s.take (s.length - 2)) (1024 * 1024 * 1024)
  else if pyEndsWith ("MB".toList) s then
    sizeBranch (s.take (s.length - 2)) (1024 * 1024)
  else if pyEndsWith ("KB".toList) s then
    sizeBranch (s.take (s.length - 2)) 1024
  else if pyEndsWith ("B".toList) s then
    sizeBranch (s.take (s.length - 1)) 1
  else
    match pyIntStr s with
    | some n => .ok n
    | none => .error .invalidSizeFormat

/-- `size_str.strip().upper()` of line 11. -/
def upperStrip (l : List Char) : List Char :=
  (pyStrip l).map pyToUpper

/-- `parse_size(size_str)` (compress.py lines 9–21). -/
def parseSize (l : List Char) : Except SizeError ℤ :=
  parseSizeCore (upperStrip l)

/-- Whether the numeric portion selected by `parseSizeCore`'s suffix branch
parses (`float` for a recognised suffix, `int` bare): the complement of the
`InvalidSizeFormat` outcomes, branch by branch. -/
def coreNumericOk (s : List Char) : Bool :=
  if pyEndsWith ("GB".toList) s then (pyFloat (s.take (s.length - 2))).isSome
  else if pyEndsWith ("MB".toList) s then (pyFloat (s.take (s.length - 2))).isSome
  else if pyEndsWith ("KB".toList) s then (pyFloat (s.take (s.length - 2))).isSome
  else if pyEndsWith ("B".toList) s then (pyFloat (s.take (s.length - 1))).isSome
  else (pyIntStr s).isSome

/-- `True` exactly when the numeric portion of the token parses in the
branch `parse_size` selects for it. -/
def sizeNumericOk (l : List Char) : Bool :=
  coreNumericOk (upperStrip l)

/-! ### Image size-search engine (compress.py lines 26–57)

The JPEG encoder is opaque: it enters the model as an oracle
`encSize : ImgState → ℕ` giving the byte size that `img.save(...)` produces
for a given quality and resolution.  One loop iteration encodes, compares
against the target, and either terminates (success) or updates the state. -/

structure ImgState where
  quality : ℕ
  width : ℕ
  height : ℕ
deriving DecidableEq, Repr

/-- `min_quality = 5` (line 32). -/
def minQuality : ℕ := 5

/-- The `else` arms of the loop body (lines 45–53): above the quality floor,
drop quality by 5 at unchanged resolution; at the floor, scale both
dimensions by `0.9` rounded down (`int(width * 0.9)` equals `width * 9 / 10`
in exact arithmetic, and the binary64 evaluation of `width * 0.9` truncates
to the same integer for every width below 2^52) and reset quality to 85. -/
def imgNext (s : ImgState) : ImgState :=
  if minQuality < s.quality then
    ⟨s.quality - 5, s.width, s.height⟩
  else
    ⟨85, s.width * 9 / 10, s.height * 9 / 10⟩

/-- One iteration of the `while True:` loop (lines 37–53): `none` means the
`break` on line 43 fired (encoded size is at or under target), `some s'`
is the state the next iteration runs with. -/
def imgStep (encSize : ImgState → ℕ) (target : ℕ) (s : ImgState) : Option ImgState :=
  if encSize s ≤ target then none else some (imgNext s)

/-- The loop, observed for `fuel` iterations: `some s'` when the loop
terminates (breaks) within `fuel` iterations with final state `s'`, `none`
when it is still running after `fuel` iterations.  The source loop has no
other exit: the model's only outcomes are success and still-running. -/
def imgLoop (encSize : ImgState → ℕ) (target : ℕ) : ℕ → ImgState → Option ImgState
  | 0, _ => none
  | fuel + 1, s =>
      if encSize s ≤ target then some s
      else imgLoop encSize target fuel (imgNext s)

/-- The source loop terminates on `(encSize, target, s)` iff some finite
number of iterations reaches the `break`. -/
def ImgLoopTerminates (encSize : ImgState → ℕ) (target : ℕ) (s : ImgState) : Prop :=
  ∃ fuel out, imgLoop encSize target fuel s = some out

/-- Initial state for `compress_image`: `quality = 95` (line 33) at the
source image's dimensions. -/
def imgInit (width height : ℕ) : ImgState :=
  ⟨95, width, height⟩

/-! ### Video bitrate planner (compress.py lines 59–135)

`get_video_duration` runs ffprobe and does `float(result.stdout.strip())`;
any exception (in particular an unparsable stdout, which is what a failed
probe produces) is caught and turns into `sys.exit(1)`.  Note the probe
process's exit status itself is never inspected.  The ffmpeg passes are run
with `subprocess.run` without `check=True` and their return codes are never
read, so they enter the model as parameters the result provably ignores. -/

/-- `get_video_duration` (lines 59–69), as a function of the probe's stdout:
`.ok d` when `float` parses the stripped stdout, `.error 1` for the
`sys.exit(1)` on line 69. -/
def getVideoDuration (probeStdout : List Char) : Except ℕ ℚ :=
  match pyFloat (pyStrip probeStdout) with
  | some d => .ok d
  | none => .error 1

structure VideoPlan where
  usable_bytes : ℚ
  total_bitrate : ℚ
  audio_bitrate : ℚ
  video_bitrate : ℚ
deriving DecidableEq, Repr

/-- Lines 84–91: `audio_bitrate = 128 * 1000`, reassigned to `96 * 1000`
when `target_total_bitrate < 1000000`, then reassigned to `64 * 1000` when
`target_total_bitrate < 500000` (two independent `if`s, source order). -/
def audioBitrateFor (total : ℚ) : ℚ :=
  let a : ℚ := 128 * 1000
  let a : ℚ := if total < 1000000 then 96 * 1000 else a
  if total < 500000 then 64 * 1000 else a

/-- Lines 78–93: `usable_bytes = target_bytes * (1 - 0.05)`,
`target_total_bitrate = usable_bytes * 8 / duration`, audio split, and
`video_bitrate = target_total_bitrate - audio_bitrate`. -/
def planVideo (targetBytes duration : ℚ) : VideoPlan :=
  let usable : ℚ := targetBytes * (1 - 5 / 100)
  let total : ℚ := usable * 8 / duration
  let audio : ℚ := audioBitrateFor total
  ⟨usable, total, audio, total - audio⟩

/-- Observable outcome of one `compress_video` call: which ffmpeg passes
were started (in order), and whether the call exited the process
(`some code`) or returned normally (`none`). -/
structure VideoRun where
  passesRun : List ℕ
  exitCode : Option ℕ
deriving DecidableEq, Repr

/-- `compress_video` (lines 71–135) as a function of the target, the probe
stdout, and the exit statuses of the two ffmpeg passes.  The viability
check on line 95 (`video_bitrate < 1000`) exits before either pass; when it
passes, both encode passes are run unconditionally — the source never reads
`pass1Exit`/`pass2Exit` (no `check=True`, no `returncode` access), which is
why they are unused below. -/
def compressVideoRun (targetBytes : ℚ) (probeStdout : List Char)
    (_pass1Exit _pass2Exit : ℤ) : VideoRun :=
  match getVideoDuration probeStdout with
  | .error c => ⟨[], some c⟩
  | .ok duration =>
      let plan := planVideo targetBytes duration
      if plan.video_bitrate < 1000 then ⟨[], some 1⟩
      else ⟨[1, 2], none⟩

/-! ### Dispatcher / `main` (compress.py lines 137–182) -/

/-- What `main` does after argument parsing, up to and including choosing a
pipeline.  `crashSizeParse` is the uncaught `ValueError` from `parse_size`
(terminates with a traceback, non-zero exit). -/
inductive MainAction
  | exitInputNotFound
  | crashSizeParse
  | noopSuccess
  | runImage (target : ℤ)
  | runVideo (target : ℤ)
  | exitUnsupported
deriving DecidableEq, Repr

/-- `image_exts` (line 167). -/
def imageExts : List (List Char) :=
  [".jpg".toList, ".jpeg".toList, ".png".toList, ".bmp".toList, ".tiff".toList]

/-- `video_exts` (line 168). -/
def videoExts : List (List Char) :=
  [".mp4".toList, ".mov".toList, ".avi".toList, ".mkv".toList, ".flv".toList]

/-- Lines 145–178 of `main`: existence check, size parse, the
already-small-enough short-circuit (`sys.exit(0)` on line 158), then
extension dispatch with the extension lowercased (line 166). -/
def mainDispatch (inputExists : Bool) (sizeToken : List Char)
    (currentSize : ℕ) (ext : List Char) : MainAction :=
  if inputExists = false then .exitInputNotFound
  else
    match parseSize sizeToken with
    | .error _ => .crashSizeParse
    | .ok target =>
        if (currentSize : ℤ) ≤ target then .noopSuccess
        else
          let e := ext.map pyToLower
          if e ∈ imageExts then .runImage target
          else if e ∈ videoExts then .runVideo target
          else .exitUnsupported

/-- The process exit code `main` produces immediately at this action, when
it exits there (`none` for the pipeline actions, which continue). -/
def MainAction.immediateExit : MainAction → Option ℕ
  | .exitInputNotFound => some 1
  | .crashSizeParse => some 1
  | .noopSuccess => some 0
  | .exitUnsupported => some 1
  | .runImage _ => none
  | .runVideo _ => none

/-- Whether the action invokes a compression pipeline (writes any output). -/
def MainAction.invokesPipeline : MainAction → Bool
  | .runImage _ => true
  | .runVideo _ => true
  | _ => false

/-! ### Helper lemmas about the string primitives -/

theorem toNat_charOfNat {n : ℕ} (h : n < 55296) : (Char.ofNat n).toNat = n := by
  have hv : n.isValidChar := Or.inl h
  simp [Char.ofNat, hv, Char.ofNatAux, Char.toNat, UInt32.toNat, BitVec.toNat_ofNatLt]

theorem pyToUpper_toNat_of_lower {c : Char} (h1 : 97 ≤ c.toNat) (h2 : c.toNat ≤ 122) :
    (pyToUpper c).toNat = c.toNat - 32 := by
  unfold pyToUpper
  rw [if_pos ⟨h1, h2⟩]
  exact toNat_charOfNat (by omega)

theorem pyToUpper_eq_of_not_lower {c : Char} (h : ¬(97 ≤ c.toNat ∧ c.toNat ≤ 122)) :
    pyToUpper c = c :=
  if_neg h

theorem pyToUpper_idem (c : Char) : pyToUpper (pyToUpper c) = pyToUpper c := by
  by_cases h : 97 ≤ c.toNat ∧ c.toNat ≤ 122
  · have ht : (pyToUpper c).toNat = c.toNat - 32 := pyToUpper_toNat_of_lower h.1 h.2
    apply pyToUpper_eq_of_not_lower
    rw [ht]
    omega
  · rw [pyToUpper_eq_of_not_lower h, pyToUpper_eq_of_not_lower h]

theorem pyIsSpace_false_of_ge {c : Char} (h : 33 ≤ c.toNat) : pyIsSpace c = false := by
  unfold pyIsSpace
  simp only [Bool.or_eq_false_iff, decide_eq_false_iff_not]
  omega

theorem pyIsSpace_pyToUpper (c : Char) : pyIsSpace (pyToUpper c) = pyIsSpace c := by
  by_cases h : 97 ≤ c.toNat ∧ c.toNat ≤ 122
  · have ht : (pyToUpper c).toNat = c.toNat - 32 := pyToUpper_toNat_of_lower h.1 h.2
    rw [pyIsSpace_false_of_ge (by omega), pyIsSpace_false_of_ge (by omega)]
  · rw [pyToUpper_eq_of_not_lower h]

theorem dropWhile_map_upper (l : List Char) :
    (l.map pyToUpper).dropWhile pyIsSpace = (l.dropWhile pyIsSpace).map pyToUpper := by
  induction l with
  | nil => rfl
  | cons c t ih =>
      simp only [List.map_cons, List.dropWhile_cons, pyIsSpace_pyToUpper]
      by_cases h : pyIsSpace c
      · simp [h, ih]
      · simp [h]

theorem pyStrip_map_upper (l : List Char) :
    pyStrip (l.map pyToUpper) = (pyStrip l).map pyToUpper := by
  unfold pyStrip
  rw [dropWhile_map_upper, ← List.map_reverse, dropWhile_map_upper, ← List.map_reverse]

theorem map_upper_idem (l : List Char) :
    (l.map pyToUpper).map pyToUpper = l.map pyToUpper := by
  rw [List.map_map]
  exact List.map_congr_left (fun c _ => pyToUpper_idem c)

theorem upperStrip_map_upper (l : List Char) :
    upperStrip (l.map pyToUpper) = upperStrip l := by
  unfold upperStrip
  rw [pyStrip_map_upper, map_upper_idem]

theorem parseSize_upper (l : List Char) :
    parseSize (l.map pyToUpper) = parseSize l := by
  unfold parseSize
  rw [upperStrip_map_upper]

theorem sizeBranch_error {p : List Char} {sc : ℚ} (h : (pyFloat p).isSome = false) :
    sizeBranch p sc = .error .invalidSizeFormat := by
  unfold sizeBranch
  cases hp : pyFloat p with
  | none => rfl
  | some q => rw [hp] at h; exact absurd h (by simp)

theorem parseSizeCore_error (s : List Char) (h : coreNumericOk s = false) :
    parseSizeCore s = .error .invalidSizeFormat := by
  unfold coreNumericOk at h
  unfold parseSizeCore
  split_ifs at h ⊢ <;> try exact sizeBranch_error h
  cases hp : pyIntStr s with
  | none => rfl
  | some n => rw [hp] at h; exact absurd h (by simp)

/-- A list that does not end in `['B']` ends in none of the two-character
unit suffixes either. -/
theorem pyEndsWith_two_false {c : Char} {s : List Char}
    (h : pyEndsWith ['B'] s = false) : pyEndsWith [c, 'B'] s = false := by
  unfold pyEndsWith List.isSuffixOf at h ⊢
  have h1 : List.reverse ['B'] = ['B'] := rfl
  have h2 : List.reverse [c, 'B'] = ['B', c] := rfl
  rw [h1] at h
  rw [h2]
  cases hr : s.reverse with
  | nil => rfl
  | cons a t =>
      rw [hr] at h
      simp only [List.isPrefixOf, Bool.and_eq_false_iff] at h ⊢
      rcases h with h | h
      · exact Or.inl h
      · exact absurd h (by simp)

/-- On a token whose (stripped, upper-cased) form has no `B` suffix,
`parse_size` is exactly the Python integer-literal parse. -/
theorem parseSize_no_suffix (l : List Char)
    (hB : pyEndsWith ['B'] (upperStrip l) = false) :
    parseSize l =
      (match pyIntStr (upperStrip l) with
        | some n => Except.ok n
        | none => Except.error SizeError.invalidSizeFormat) := by
  have hGB : "GB".toList = ['G', 'B'] := rfl
  have hMB : "MB".toList = ['M', 'B'] := rfl
  have hKB : "KB".toList = ['K', 'B'] := rfl
  have hb : "B".toList = ['B'] := rfl
  unfold parseSize parseSizeCore
  rw [hGB, hMB, hKB, hb, pyEndsWith_two_false hB, pyEndsWith_two_false hB,
    pyEndsWith_two_false hB, hB]
  simp

/-- Truncation of an integer value is that integer. -/
theorem pyTrunc_intCast (n : ℤ) : pyTrunc ((n : ℚ)) = n := by
  simp [pyTrunc, Rat.num_intCast, Rat.den_intCast]

theorem pyTrunc_eq_of_eq_int {q : ℚ} {n : ℤ} (h : q = (n : ℚ)) : pyTrunc q = n := by
  rw [h, pyTrunc_intCast]

/-- `audioBitrateFor` with its `let` chain flattened (definitional). -/
theorem audioBitrateFor_eq (total : ℚ) :
    audioBitrateFor total =
      if total < 500000 then 64 * 1000
      else if total < 1000000 then 96 * 1000
      else 128 * 1000 := rfl

/-! ### Claim theorems -/

/-- C1: for every duration > 0 and every target, the video planner computes
`usable_bytes = target_bytes * 0.95`,
`total_bitrate_bps = usable_bytes * 8 / duration_seconds`, and
`video_bitrate_bps = total_bitrate_bps - audio_bitrate_bps` with the chosen
audio bitrate, in exact rational arithmetic. -/
theorem C1_video_plan_formulas (t d : ℚ) (hd : 0 < d) :
    (planVideo t d).usable_bytes = t * (95 / 100) ∧
    (planVideo t d).total_bitrate = (planVideo t d).usable_bytes * 8 / d ∧
    (planVideo t d).audio_bitrate = audioBitrateFor (planVideo t d).total_bitrate ∧
    (planVideo t d).video_bitrate =
      (planVideo t d).total_bitrate - (planVideo t d).audio_bitrate := by
  refine ⟨?_, rfl, rfl, rfl⟩
  unfold planVideo
  norm_num

/-- C1 witness: the plan for a 10 MiB target over 60 seconds. -/
theorem C1_video_plan_formulas_witness :
    (planVideo 10485760 60).usable_bytes = 10485760 * (95 / 100) ∧
    (planVideo 10485760 60).total_bitrate = (planVideo 10485760 60).usable_bytes * 8 / 60 ∧
    (planVideo 10485760 60).audio_bitrate =
      audioBitrateFor (planVideo 10485760 60).total_bitrate ∧
    (planVideo 10485760 60).video_bitrate =
      (planVideo 10485760 60).total_bitrate - (planVideo 10485760 60).audio_bitrate :=
  C1_video_plan_formulas 10485760 60 (by norm_num)

/-- C2: the audio bitrate is chosen by strict-less-than tiers in source
order, the later threshold overriding: 128000 for total ≥ 1000000, 96000
for 500000 ≤ total < 1000000, 64000 for total < 500000; exactly 1000000
stays in the 128k tier and exactly 500000 stays in the 96k tier. -/
theorem C2_audio_tiers (total : ℚ) :
    (1000000 ≤ total → audioBitrateFor total = 128000) ∧
    (500000 ≤ total → total < 1000000 → audioBitrateFor total = 96000) ∧
    (total < 500000 → audioBitrateFor total = 64000) ∧
    audioBitrateFor 1000000 = 128000 ∧
    audioBitrateFor 500000 = 96000 := by
  refine ⟨fun h1 => ?_, fun h1 h2 => ?_, fun h1 => ?_, by norm_num [audioBitrateFor_eq],
    by norm_num [audioBitrateFor_eq]⟩ <;>
    rw [audioBitrateFor_eq] <;> split_ifs <;> linarith

/-- C2 witness: one total in each tier. -/
theorem C2_audio_tiers_witness :
    audioBitrateFor 2000000 = 128000 ∧
    audioBitrateFor 700000 = 96000 ∧
    audioBitrateFor 100 = 64000 :=
  ⟨(C2_audio_tiers 2000000).1 (by norm_num),
   (C2_audio_tiers 700000).2.1 (by norm_num) (by norm_num),
   (C2_audio_tiers 100).2.2.1 (by norm_num)⟩

/-- C3: whenever the computed video bitrate is below 1000, `compress_video`
exits fatally (code 1, the `TargetUnachievable` failure) with the list of
started encode passes empty — neither pass 1 nor pass 2 runs. -/
theorem C3_viability_before_encode (t : ℚ) (stdout : List Char) (p1 p2 : ℤ) (d : ℚ)
    (hdur : getVideoDuration stdout = .ok d)
    (hv : (planVideo t d).video_bitrate < 1000) :
    compressVideoRun t stdout p1 p2 = ⟨[], some 1⟩ := by
  unfold compressVideoRun
  rw [hdur]
  simp [hv]

/-- C3 witness: a 10000-byte target for a 100-second video (video bitrate
comes out negative), any pass statuses. -/
theorem C3_viability_before_encode_witness :
    compressVideoRun 10000 ("100".toList) 0 0 = ⟨[], some 1⟩ :=
  C3_viability_before_encode 10000 ("100".toList) 0 0 100
    (by simp +decide [getVideoDuration, pyFloat, pyStrip, pySign, pyIsSpace, digitsVal,
      allDigits, List.splitOn, List.splitOnP, List.splitOnP.go])
    (by norm_num [planVideo, audioBitrateFor_eq])

/-- C4: `parse_size` maps "5MB" to 5·1024², "500KB" to 500·1024, "1.5GB"
to ⌊1.5·1024³⌋, bare "100" to 100; it is case-insensitive (upper-casing the
token never changes the result, e.g. "5mb" = "5MB"); and the suffix chain
tests GB/MB/KB before bare B, so "1KB"/"1MB"/"1GB" get their multipliers
rather than the bare-B parse (which would reject "1K"/"1M"/"1G"). -/
theorem C4_parse_size_tokens (t : List Char) :
    parseSize ("5MB".toList) = .ok (5 * 1024 * 1024) ∧
    parseSize ("500KB".toList) = .ok (500 * 1024) ∧
    parseSize ("1.5GB".toList) = .ok 1610612736 ∧
    parseSize ("100".toList) = .ok 100 ∧
    parseSize t = parseSize (t.map pyToUpper) ∧
    parseSize ("5mb".toList) = parseSize ("5MB".toList) ∧
    parseSize ("1KB".toList) = .ok 1024 ∧
    parseSize ("1MB".toList) = .ok 1048576 ∧
    parseSize ("1GB".toList) = .ok 1073741824 := by
  refine ⟨?_, ?_, ?_, ?_, (parseSize_upper t).symm, ?lower, ?_, ?_, ?_⟩
  case lower =>
    rw [show ("5MB".toList) = ("5mb".toList).map pyToUpper from by decide]
    exact (parseSize_upper _).symm
  all_goals
    simp +decide [parseSize, upperStrip, pyStrip, pyToUpper, pyIsSpace, parseSizeCore,
      sizeBranch, pyEndsWith, pyFloat, pySign, digitsVal, allDigits, pyIntStr,
      List.splitOn, List.splitOnP, List.splitOnP.go, List.isSuffixOf, List.isPrefixOf]
  all_goals exact pyTrunc_eq_of_eq_int (by norm_num)

/-- C5: whenever the numeric portion of the token does not parse in the
branch `parse_size` selects, the result is the `InvalidSizeFormat` error
(the run terminates; in the source this is the uncaught `ValueError`).
The embedding of `parse_size` is a total Lean function of the token alone,
reflecting that the source function is pure. -/
theorem C5_invalid_size_format (l : List Char) (h : sizeNumericOk l = false) :
    parseSize l = .error .invalidSizeFormat :=
  parseSizeCore_error (upperStrip l) h

/-- C5 witness: "XMB" has an unparsable numeric portion. -/
theorem C5_invalid_size_format_witness :
    parseSize ("XMB".toList) = .error .invalidSizeFormat :=
  C5_invalid_size_format ("XMB".toList) (by decide)

/-- C6: one iteration of the image loop on an oversized encode: above the
quality floor the next state has quality lowered by exactly 5 and unchanged
dimensions (so all quality reductions at a resolution happen before any
resize); at the floor the next state has both dimensions multiplied by 0.9
rounded down and quality reset to 85. -/
theorem C6_image_step (encSize : ImgState → ℕ) (target : ℕ) (s : ImgState)
    (hover : target < encSize s) :
    (5 < s.quality →
      imgStep encSize target s = some ⟨s.quality - 5, s.width, s.height⟩) ∧
    (s.quality = 5 →
      imgStep encSize target s = some ⟨85, s.width * 9 / 10, s.height * 9 / 10⟩) := by
  unfold imgStep imgNext minQuality
  rw [if_neg (by omega)]
  refine ⟨fun h => ?_, fun h => ?_⟩
  · rw [if_pos h]
  · rw [if_neg (by omega)]

/-- C6 witness: with an encoder always producing one byte over a zero
target, the step from quality 95 lowers quality to 90 at unchanged size,
and the step from quality 5 resizes 100×100 to 90×90 at quality 85. -/
theorem C6_image_step_witness :
    imgStep (fun _ => 1) 0 ⟨95, 100, 100⟩ = some ⟨90, 100, 100⟩ ∧
    imgStep (fun _ => 1) 0 ⟨5, 100, 100⟩ = some ⟨85, 90, 90⟩ :=
  ⟨(C6_image_step (fun _ => 1) 0 ⟨95, 100, 100⟩ (by decide)).1 (by decide),
   (C6_image_step (fun _ => 1) 0 ⟨5, 100, 100⟩ (by decide)).2 rfl⟩

/-- C7: the source loop has no termination guard.  With an encoder whose
output always exceeds the target (already possible at `target_bytes = 0`,
since every JPEG encode is nonempty) the loop never reaches its only exit,
for any amount of fuel — and the loop's outcome type has no failure case at
all, so no `TargetUnachievable` signal exists on this path.  This refutes
the claim that the implementation guards termination. -/
theorem C7_no_termination_guard :
    ¬ ImgLoopTerminates (fun _ => 1) 0 (imgInit 100 100) := by
  have key : ∀ fuel s, imgLoop (fun _ => 1) 0 fuel s = none := by
    intro fuel
    induction fuel with
    | zero => intro s; rfl
    | succ n ih =>
        intro s
        unfold imgLoop
        rw [if_neg (by omega)]
        exact ih _
  rintro ⟨fuel, out, h⟩
  rw [key] at h
  exact Option.noConfusion h

/-- C8: whenever the input exists, the size token parses, and the current
file size is at or under the target, `main` takes the no-op branch: it
exits with code 0 and invokes no compression pipeline (no output file is
produced or modified). -/
theorem C8_noop_under_target (tok ext : List Char) (cs : ℕ) (tgt : ℤ)
    (hp : parseSize tok = .ok tgt) (hle : (cs : ℤ) ≤ tgt) :
    mainDispatch true tok cs ext = .noopSuccess ∧
    MainAction.noopSuccess.immediateExit = some 0 ∧
    MainAction.noopSuccess.invokesPipeline = false := by
  refine ⟨?_, rfl, rfl⟩
  unfold mainDispatch
  rw [hp]
  simp [hle]

/-- C8 witness: a 100-byte file with a 5MB target, image extension. -/
theorem C8_noop_under_target_witness :
    mainDispatch true ("5MB".toList) 100 (".jpg".toList) = .noopSuccess ∧
    MainAction.noopSuccess.immediateExit = some 0 ∧
    MainAction.noopSuccess.invokesPipeline = false :=
  C8_noop_under_target ("5MB".toList) (".jpg".toList) 100 5242880
    (by
      simp +decide [parseSize, upperStrip, pyStrip, pyToUpper, pyIsSpace, parseSizeCore,
        sizeBranch, pyEndsWith, pyFloat, pySign, digitsVal, allDigits, pyIntStr,
        List.splitOn, List.splitOnP, List.splitOnP.go, List.isSuffixOf, List.isPrefixOf]
      exact pyTrunc_eq_of_eq_int (by norm_num))
    (by norm_num)

/-- C9 counterexample: a run in which ffmpeg pass 1 exits with status 1 (a
reported failure) while the probe output is fine: `compress_video` still
starts both passes and returns normally (no fatal exit), because the source
never inspects the encoder's exit status.  This refutes the claim that an
external encode failure terminates the run. -/
theorem C9_counterexample :
    compressVideoRun 1000000 ("1".toList) 1 0 = ⟨[1, 2], none⟩ := by
  unfold compressVideoRun
  rw [show getVideoDuration ("1".toList) = .ok 1 from by
    simp +decide [getVideoDuration, pyFloat, pyStrip, pySign, pyIsSpace, digitsVal,
      allDigits, List.splitOn, List.splitOnP, List.splitOnP.go]]
  dsimp only
  rw [if_neg (by norm_num [planVideo, audioBitrateFor_eq])]

/-- C9 amended: the only external-process failure the program reacts to is
a probe whose stdout does not parse as a number — then it exits fatally
with code 1 before any encode pass; the exit statuses of the two encoder
passes never influence the outcome (the run is identical for any pass
statuses), so an encoder failure does not terminate the run. -/
theorem C9_probe_failure_fatal_encoder_ignored (t : ℚ) (stdout : List Char)
    (p1 p2 p1' p2' : ℤ) (hfail : pyFloat (pyStrip stdout) = none) :
    compressVideoRun t stdout p1 p2 = ⟨[], some 1⟩ ∧
    compressVideoRun t stdout p1 p2 = compressVideoRun t stdout p1' p2' := by
  refine ⟨?_, rfl⟩
  unfold compressVideoRun getVideoDuration
  rw [hfail]

/-- C9 amended witness: empty probe stdout (what a failed ffprobe produces)
with a viable target. -/
theorem C9_probe_failure_fatal_encoder_ignored_witness :
    compressVideoRun 1000000 ([] : List Char) 7 7 = ⟨[], some 1⟩ ∧
    compressVideoRun 1000000 ([] : List Char) 7 7 = compressVideoRun 1000000 ([] : List Char) 0 0 :=
  C9_probe_failure_fatal_encoder_ignored 1000000 [] 7 7 0 0 (by decide)

/-- C10: a suffixless size token is accepted exactly when it is an integer
literal — `parse_size` on it is the Python `int` parse — so fractional
"1.5" is rejected with `InvalidSizeFormat` even though "1.5MB" (with a
suffix, parsed by `float`) is accepted. -/
theorem C10_suffixless_integer_only (l : List Char)
    (hB : pyEndsWith ['B'] (upperStrip l) = false) :
    (parseSize l =
      (match pyIntStr (upperStrip l) with
        | some n => Except.ok n
        | none => Except.error SizeError.invalidSizeFormat)) ∧
    parseSize ("1.5".toList) = .error .invalidSizeFormat ∧
    parseSize ("1.5MB".toList) = .ok 1572864 := by
  refine ⟨parseSize_no_suffix l hB, ?_, ?_⟩
  · exact parseSizeCore_error (upperStrip ("1.5".toList)) (by decide)
  · simp +decide [parseSize, upperStrip, pyStrip, pyToUpper, pyIsSpace, parseSizeCore,
      sizeBranch, pyEndsWith, pyFloat, pySign, digitsVal, allDigits, pyIntStr,
      List.splitOn, List.splitOnP, List.splitOnP.go, List.isSuffixOf, List.isPrefixOf]
    exact pyTrunc_eq_of_eq_int (by norm_num)

/-- C10 witness: the bare-integer token "7". -/
theorem C10_suffixless_integer_only_witness :
    (parseSize ("7".toList) =
      (match pyIntStr (upperStrip ("7".toList)) with
        | some n => Except.ok n
        | none => Except.error SizeError.invalidSizeFormat)) ∧
    parseSize ("1.5".toList) = .error .invalidSizeFormat ∧
    parseSize ("1.5MB".toList) = .ok 1572864 :=
  C10_suffixless_integer_only ("7".toList) (by decide)

end Compressor
